import Mathlib

/-!
Verification of the "Dot To Do" service (src/app.py): a shallow embedding of
its pure data transformations, with external effects (HTTP fetches, the
language-model call, the clock) passed in as explicit parameters.

Strings are Lean `String`s; calendar dates are rata-die day numbers (days
since 0000-12-31 in the proleptic Gregorian calendar), so that Python's
`(datetime.now() - last_date).days` becomes integer subtraction of day
numbers.
-/

/-- Python `str.strip()` whitespace characters (ASCII). -/
def isPySpace (c : Char) : Bool :=
  c = ' ' || c = '\t' || c = '\n' || c = '\r' || c = '\x0b' || c = '\x0c'

/-- Python `s.strip()`: drop leading and trailing whitespace. -/
def pyStrip (s : String) : String :=
  ((s.data.dropWhile isPySpace).rdropWhile isPySpace).asString

/-- Gregorian leap-year rule, as implemented by Python `datetime`. -/
def isLeapYear (y : Nat) : Bool :=
  y % 4 = 0 && (y % 100 != 0 || y % 400 = 0)

/-- Number of days in month `m` of year `y` (months are 1-based). -/
def daysInMonth (y m : Nat) : Nat :=
  if m = 2 then (if isLeapYear y then 29 else 28)
  else if m = 4 ∨ m = 6 ∨ m = 9 ∨ m = 11 then 30
  else 31

/-- Days in the months of year `y` strictly before month `m`. -/
def daysBeforeMonth (y m : Nat) : Nat :=
  (List.range (m - 1)).foldl (fun acc i => acc + daysInMonth y (i + 1)) 0

/-- Rata-die day number of the date `y-m-d`: day 1 is 0001-01-01 (a Monday). -/
def rataDie (y m d : Nat) : Nat :=
  365 * (y - 1) + (y - 1) / 4 + (y - 1) / 400 - (y - 1) / 100 + daysBeforeMonth y m + d

/-- Numeric value of a list of decimal digit characters. -/
def natOfDigits (l : List Char) : Nat :=
  l.foldl (fun acc c => acc * 10 + (c.toNat - 48)) 0

/-- Python `datetime.strptime(s, "%Y-%m-%d")`, returning the rata-die day
number on success and `none` on a `ValueError`.  CPython's `_strptime`
compiles `%Y` to exactly four digits and `%m`, `%d` to one or two digits,
requires the whole string to be consumed, and the `datetime` constructor
then validates the month and day-of-month ranges. -/
def parseYMD (s : List Char) : Option Nat :=
  match s.splitOn '-' with
  | [ys, ms, ds] =>
    if ys.length = 4 ∧ ys.all Char.isDigit ∧
       1 ≤ ms.length ∧ ms.length ≤ 2 ∧ ms.all Char.isDigit ∧
       1 ≤ ds.length ∧ ds.length ≤ 2 ∧ ds.all Char.isDigit then
      let y := natOfDigits ys
      let m := natOfDigits ms
      let d := natOfDigits ds
      if 1 ≤ y ∧ 1 ≤ m ∧ m ≤ 12 ∧ 1 ≤ d ∧ d ≤ daysInMonth y m then
        some (rataDie y m d)
      else none
    else none
  | _ => none

/-- Python `dict.get(k, dflt)` over an association list (keys unique in use). -/
def dictGetD (m : List (String × String)) (k dflt : String) : String :=
  match m.find? (fun kv => kv.1 == k) with
  | some kv => kv.2
  | none => dflt

/-- `is_stale(job_number, last_updates, days=10)` from src/app.py: `now` is the
rata-die day number of `datetime.now()`'s calendar date (Python's
`(now - last_date).days` with `last_date` at midnight equals the difference
of the two dates' day numbers, whatever the time of day). -/
def is_stale (job_number : String) (last_updates : List (String × String))
    (now : Int) (days : Int := 10) : Bool :=
  let last_update := dictGetD last_updates job_number ""
  if last_update = "" then
    true  -- No updates = stale
  else
    match parseYMD (last_update.data.take 10) with
    | some last_date => decide (days ≤ now - (last_date : Int))
    | none => false

/-- Claim C1: for every job number and every map of job-number to
most-recent-update-timestamp, `is_stale` returns `true` when the recorded
timestamp parses and is 10 or more days before now, returns `true` when the
map has no (non-empty) entry for the job number, and returns `false` when the
recorded timestamp string is malformed (its first 10 characters do not parse
as a `YYYY-MM-DD` date). -/
theorem is_stale_policy (jn : String) (lu : List (String × String)) (now : Int) :
    (dictGetD lu jn "" = "" → is_stale jn lu now = true) ∧
    (∀ d, dictGetD lu jn "" ≠ "" →
      parseYMD ((dictGetD lu jn "").data.take 10) = some d →
      (is_stale jn lu now = true ↔ 10 ≤ now - (d : Int))) ∧
    (dictGetD lu jn "" ≠ "" →
      parseYMD ((dictGetD lu jn "").data.take 10) = none →
      is_stale jn lu now = false) := by
  refine ⟨fun h => ?_, fun d hne hp => ?_, fun hne hp => ?_⟩
  · simp [is_stale, h]
  · simp [is_stale, hne, hp]
  · simp [is_stale, hne, hp]

/-- Witness for C1: a job updated 19 days ago is stale, the comparison for a
recorded update is exactly the 10-day test, and a malformed timestamp is not
stale; an absent entry is stale. -/
theorem is_stale_policy_witness :
    is_stale "J2" [("J1", "2024-01-01")] ((rataDie 2024 1 20 : Nat) : Int) = true ∧
    (is_stale "J1" [("J1", "2024-01-01")] ((rataDie 2024 1 20 : Nat) : Int) = true ↔
      10 ≤ ((rataDie 2024 1 20 : Nat) : Int) - ((rataDie 2024 1 1 : Nat) : Int)) ∧
    is_stale "J1" [("J1", "bogus")] ((rataDie 2024 1 20 : Nat) : Int) = false :=
  ⟨(is_stale_policy "J2" [("J1", "2024-01-01")] _).1 (by decide),
   (is_stale_policy "J1" [("J1", "2024-01-01")] _).2.1 (rataDie 2024 1 1)
      (by decide) (by decide),
   (is_stale_policy "J1" [("J1", "bogus")] _).2.2 (by decide) (by decide)⟩

/-- Python `content.split('\n', 1)[1]`: everything after the first newline
(callers guard on the newline being present). -/
def afterFirstNl : List Char → List Char
  | [] => []
  | c :: rest => if c = '\n' then rest else afterFirstNl rest

/-- Scan for the first suffix that starts with `p`; return what follows that
occurrence of `p`. -/
def rsplitGo (p : List Char) : List Char → Option (List Char)
  | [] => none
  | c :: rest =>
    if p.isPrefixOf (c :: rest) then some ((c :: rest).drop p.length)
    else rsplitGo p rest

/-- Python `l.rsplit(pat, 1)[0]` for nonempty `pat`: everything before the
last occurrence of `pat`, or `l` itself when `pat` does not occur; computed
by scanning the reversed list for the reversed pattern. -/
def rsplitBefore (pat l : List Char) : List Char :=
  match rsplitGo pat.reverse l.reverse with
  | some r => r.reverse
  | none => l

/-- The first reassignment in `strip_markdown_json`: when the (stripped)
content starts with three backticks, drop through the first newline, or just
the first three characters when there is no newline. -/
def stripLeadFence (content : String) : String :=
  if "```".data.isPrefixOf content.data then
    (if content.data.contains '\n' then (afterFirstNl content.data).asString
     else (content.data.drop 3).asString)
  else content

/-- The second reassignment in `strip_markdown_json`: when the content ends
with three backticks, keep only what precedes their last occurrence
(`content.rsplit('\x60\x60\x60', 1)[0]`). -/
def stripTrailFence (content : String) : String :=
  if "```".data.isSuffixOf content.data then
    (rsplitBefore "```".data content.data).asString
  else content

/-- `strip_markdown_json(content)` from src/app.py: strip whitespace, drop a
leading ```-fence line, drop a trailing ``` fence, and strip again. -/
def strip_markdown_json (content : String) : String :=
  pyStrip (stripTrailFence (stripLeadFence (pyStrip content)))

theorem data_append (a b : String) : (a ++ b).data = a.data ++ b.data := rfl

/-- If `dropWhile` does not touch a list, it does not touch any prefix of it. -/
theorem dropWhile_eq_self_of_prefix {α : Type} {p : α → Bool} {y z : List α}
    (hz : z <+: y) (hy : y.dropWhile p = y) : z.dropWhile p = z := by
  cases z with
  | nil => rfl
  | cons a zs =>
    obtain ⟨t, ht⟩ := hz
    have hpa : p a = false := by
      by_contra hp
      rw [Bool.not_eq_false] at hp
      rw [← ht, List.cons_append, List.dropWhile_cons_of_pos hp] at hy
      have hlen := congrArg List.length hy
      have hle := (List.dropWhile_sublist (l := zs ++ t) p).length_le
      rw [List.length_append] at hle
      simp at hlen
      omega
    rw [List.dropWhile_cons_of_neg (by simp [hpa])]

/-- A doubly-stripped list needs no further stripping on the left. -/
theorem stripped_core (x : List Char) :
    ((x.dropWhile isPySpace).rdropWhile isPySpace).dropWhile isPySpace
      = (x.dropWhile isPySpace).rdropWhile isPySpace :=
  dropWhile_eq_self_of_prefix (List.rdropWhile_prefix isPySpace _)
    (List.dropWhile_idempotent isPySpace x)

/-- Python `strip` is idempotent. -/
theorem pyStrip_idem (s : String) : pyStrip (pyStrip s) = pyStrip s := by
  show (((pyStrip s).data.dropWhile isPySpace).rdropWhile isPySpace).asString = pyStrip s
  rw [show (pyStrip s).data = (s.data.dropWhile isPySpace).rdropWhile isPySpace from rfl]
  rw [stripped_core, List.rdropWhile_idempotent]
  rfl

theorem asString_data (s : String) : s.data.asString = s := rfl

theorem string_ext {s t : String} (h : s.data = t.data) : s = t := by
  cases s; cases t; exact congrArg String.mk h

theorem backticks_data : "```".data = ['`', '`', '`'] := rfl

/-- Dropping through the first newline of `xs ++ newline ++ ys` yields `ys`
when `xs` has no newline. -/
theorem afterFirstNl_append (xs ys : List Char) (h : '\n' ∉ xs) :
    afterFirstNl (xs ++ '\n' :: ys) = ys := by
  induction xs with
  | nil => simp [afterFirstNl]
  | cons c rest ih =>
    have hc : c ≠ '\n' := fun hc => h (hc ▸ List.mem_cons_self c rest)
    rw [List.cons_append, afterFirstNl, if_neg hc]
    exact ih fun hm => h (List.mem_cons_of_mem c hm)

/-- Claim C6: for a string of the form an opening fence line (three backticks,
optionally a language tag, a newline), a body, and a closing three-backtick
fence, `strip_markdown_json` returns the body with surrounding whitespace
stripped; for a string whose stripped form neither starts nor ends with a
fence, it returns the stripped string unchanged. -/
theorem strip_markdown_json_spec (lang body other : String) :
    ('\n' ∉ lang.data →
      strip_markdown_json ("```" ++ lang ++ "\n" ++ body ++ "```") = pyStrip body) ∧
    ("```".data.isPrefixOf (pyStrip other).data = false →
      "```".data.isSuffixOf (pyStrip other).data = false →
      strip_markdown_json other = pyStrip other) := by
  constructor
  · intro hl
    set S := "```" ++ lang ++ "\n" ++ body ++ "```" with hSdef
    have hS1 : S.data = '`' :: '`' :: '`' ::  ((lang.data ++ '\n' :: body.data) ++ ['`','`','`']) := by
      simp [hSdef, data_append]
    have e1 : S.data.dropWhile isPySpace = S.data := by
      rw [hS1]
      exact List.dropWhile_cons_of_neg (by decide)
    have e2 : S.data.rdropWhile isPySpace = S.data := by
      have hS2 : S.data
          = ('`' :: '`' :: '`' ::  ((lang.data ++ '\n' :: body.data) ++ ['`','`'])) ++ ['`'] := by
        simp [hSdef, data_append]
      rw [hS2]
      exact List.rdropWhile_concat_neg isPySpace _ '`' (by decide)
    have hA : pyStrip S = S := by
      show ((S.data.dropWhile isPySpace).rdropWhile isPySpace).asString = S
      rw [e1, e2, asString_data]
    have hpre : "```".data.isPrefixOf S.data = true := by
      rw [hS1, backticks_data]; simp [List.isPrefixOf]
    have hcon : S.data.contains '\n' = true := by
      rw [hS1]; simp [List.contains]
    have hafter : afterFirstNl S.data = body.data ++ ['`','`','`'] := by
      have hS3 : S.data = ('`' :: '`' :: '`' :: lang.data) ++ '\n' :: (body.data ++ ['`','`','`']) := by
        simp [hSdef, data_append]
      rw [hS3]
      refine afterFirstNl_append _ _ ?_
      intro hmem
      simp at hmem
      exact hl hmem
    have hB : stripLeadFence S = (body.data ++ ['`','`','`']).asString := by
      rw [stripLeadFence, if_pos hpre, if_pos hcon, hafter]
    have hsuf : "```".data.isSuffixOf (body.data ++ ['`','`','`']) = true := by
      rw [backticks_data]
      simp only [List.isSuffixOf_iff_suffix]
      exact ⟨body.data, rfl⟩
    have hrs : rsplitBefore "```".data (body.data ++ ['`','`','`']) = body.data := by
      simp [rsplitBefore, rsplitGo, List.isPrefixOf, List.reverse_append, backticks_data]
    have hC : stripTrailFence ((body.data ++ ['`','`','`']).asString) = body.data.asString := by
      rw [stripTrailFence]
      rw [show ((body.data ++ ['`','`','`']).asString).data = body.data ++ ['`','`','`'] from rfl]
      rw [if_pos hsuf, hrs]
    calc strip_markdown_json S
        = pyStrip (stripTrailFence (stripLeadFence (pyStrip S))) := rfl
      _ = pyStrip (stripTrailFence ((body.data ++ ['`','`','`']).asString)) := by rw [hA, hB]
      _ = pyStrip (body.data.asString) := by rw [hC]
      _ = pyStrip body := rfl
  · intro h1 h2
    show pyStrip (stripTrailFence (stripLeadFence (pyStrip other))) = pyStrip other
    have hL : stripLeadFence (pyStrip other) = pyStrip other := by
      simp [stripLeadFence, h1]
    have hT : stripTrailFence (pyStrip other) = pyStrip other := by
      simp [stripTrailFence, h2]
    rw [hL, hT, pyStrip_idem]

/-- Witness for C6: a fenced JSON array is unwrapped and stripped, and a plain
string is only stripped. -/
theorem strip_markdown_json_spec_witness :
    ('\n' ∉ "json".data ∧
      strip_markdown_json ("```" ++ "json" ++ "\n" ++ " [1, 2] " ++ "```") = pyStrip " [1, 2] ") ∧
    ("```".data.isPrefixOf (pyStrip "hello").data = false ∧
      "```".data.isSuffixOf (pyStrip "hello").data = false ∧
      strip_markdown_json "hello" = pyStrip "hello") :=
  ⟨⟨by decide, (strip_markdown_json_spec "json" " [1, 2] " "hello").1 (by decide)⟩,
   ⟨by decide, by decide,
    (strip_markdown_json_spec "json" " [1, 2] " "hello").2 (by decide) (by decide)⟩⟩

/-- The fixed header image URL (`HEADER_URL` in src/app.py). -/
def HEADER_URL : String := "https://mghunch.github.io/hunch-assets/Header_ToDo.png"

/-- `STAGE_ICONS` from src/app.py. -/
def STAGE_ICONS : List (String × String) :=
  [("Clarify", "üí¨"), ("Craft", "‚úèÔ∏è"), ("Refine", "üîÑ"), ("Deliver", "üì¶"), ("Simplify", "üß†")]

/-- Python `str.capitalize()`: first character uppercased, the rest
lowercased (ASCII, which covers the stage names in use). -/
def pyCapitalize (s : String) : String :=
  match s.data with
  | [] => ""
  | c :: rest => (c.toUpper :: rest.map Char.toLower).asString

/-- `get_stage_icon(stage)` from src/app.py. -/
def get_stage_icon (stage : String) : String :=
  if stage = "" then "üìã"
  else
    match STAGE_ICONS.find? (fun kv => kv.1 == pyCapitalize stage) with
    | some kv => kv.2
    | none => "üìã"

/-- One meeting mapping as rendered by `build_meetings_html`; a missing key
reads as its `.get` default. -/
structure MeetingView where
  time : String := ""
  title : String := ""
  location : String := ""
  duration : String := ""
  deriving DecidableEq

/-- One job mapping as rendered by `build_job_html`; a missing key reads as
its `.get` default. -/
structure JobView where
  jobNumber : String := ""
  jobName : String := ""
  update : String := "No updates yet"
  updateDue : String := ""
  stage : String := ""
  channelUrl : String := ""
  deriving DecidableEq

/-- One entry of the "other projects" list as rendered by
`build_other_projects_html`; a missing key reads as its `.get` default. -/
structure OtherProjectView where
  jobNumber : String := ""
  jobName : String := ""
  updateDue : String := ""
  stale : Bool := false
  deriving DecidableEq

/-- `build_summary_html(fun_fact)` from src/app.py. -/
def build_summary_html (fun_fact : String) : String :=
  if fun_fact = "" then ""
  else
    "\n    <tr>\n      <td style=\"padding: 10px 20px 15px 20px;\">\n        <p style=\"margin: 0; font-size: 14px; color: #333; line-height: 1.5;\">\n          <strong>#FOTD:</strong> <span style=\"font-style: italic;\">"
    ++ fun_fact
    ++ "</span>\n        </p>\n      </td>\n    </tr>"

/-- `build_meetings_html(meetings)` from src/app.py. -/
def build_meetings_html (meetings : List MeetingView) : String :=
  if meetings = [] then ""
  else
    let rows := meetings.foldl (fun rows meeting =>
      let time := meeting.time
      let title := meeting.title
      let location := meeting.location
      let duration := meeting.duration
      let duration_str := if duration ≠ "" then " ("
        ++ duration
        ++ ")" else ""
      rows ++ "\n          <tr>\n            <td style=\"padding: 4px 0; color: #333; font-weight: bold; white-space: nowrap; vertical-align: top; width: 80px;\">"
        ++ time
        ++ "</td>\n            <td style=\"padding: 4px 0 4px 10px; vertical-align: top;\">\n              <span style=\"color: #333; font-weight: bold;\">"
        ++ title
        ++ "</span><br>\n              <span style=\"color: #999; font-size: 13px;\">"
        ++ location ++ duration_str
        ++ "</span>\n            </td>\n          </tr>") ""
    "\n    <tr>\n      <td style=\"padding: 10px 20px 0 20px;\">\n        <div style=\"background-color: #ED1C24; color: #ffffff; padding: 8px 15px; font-size: 14px; font-weight: bold; border-radius: 3px;\">\n          MEETINGS TODAY\n        </div>\n      </td>\n    </tr>\n    <tr>\n      <td style=\"padding: 15px 20px; border-bottom: 1px solid #eee;\">\n        <table cellpadding=\"0\" cellspacing=\"0\" style=\"width: 100%; font-size: 14px; color: #333;\">\n          "
    ++ rows
    ++ "\n        </table>\n      </td>\n    </tr>"

/-- `build_job_html(job)` from src/app.py (`stage_icon` is computed by the
source but never interpolated into the template). -/
def build_job_html (job : JobView) : String :=
  let job_number := job.jobNumber
  let job_name := job.jobName
  let update := job.update
  let due_date := job.updateDue
  let stage := job.stage
  let stage_icon := get_stage_icon stage
  let channel_url := job.channelUrl
  let job_title :=
    if channel_url ≠ "" ∧ channel_url ≠ "#" then
      "<a href=\""
      ++ channel_url
      ++ "\" style=\"color: #333; text-decoration: none;\">"
      ++ job_number
      ++ " ‚Äî "
      ++ job_name
      ++ "</a>"
    else
      job_number
      ++ " ‚Äî "
      ++ job_name
  "\n    <tr>\n      <td style=\"padding: 15px 20px; border-bottom: 1px solid #eee;\">\n        <p style=\"margin: 0 0 5px 0; font-size: 16px; font-weight: bold; color: #333;\">\n          "
  ++ job_title
  ++ "\n        </p>\n        <p style=\"margin: 0 0 8px 0; font-size: 14px; color: #666; line-height: 1.4;\">\n          "
  ++ update
  ++ "\n        </p>\n        <p style=\"margin: 0; font-size: 13px; color: #999;\">\n          üï¶ "
  ++ due_date
  ++ " ¬∑ "
  ++ stage
  ++ "\n        </p>\n      </td>\n    </tr>"

/-- `build_section_html(title, jobs, color)` from src/app.py. -/
def build_section_html (title : String) (jobs : List JobView)
    (color : String := "#ED1C24") : String :=
  if jobs = [] then ""
  else
    let sectionHtml :=
      "\n    <tr>\n      <td style=\"padding: 20px 20px 0 20px;\">\n        <div style=\"background-color: "
      ++ color
      ++ "; color: #ffffff; padding: 8px 15px; font-size: 14px; font-weight: bold; border-radius: 3px;\">\n          "
      ++ title
      ++ "\n        </div>\n      </td>\n    </tr>"
    jobs.foldl (fun sectionHtml job => sectionHtml ++ build_job_html job) sectionHtml

/-- `build_other_projects_html(projects)` from src/app.py. -/
def build_other_projects_html (projects : List OtherProjectView) : String :=
  if projects = [] then ""
  else
    let items := projects.foldl (fun items p =>
      let job_number := p.jobNumber
      let job_name := p.jobName
      let update_due := p.updateDue
      let stale := p.stale
      let stale_str := if stale then "‚ùó " else ""
      let due_str := if update_due ≠ "" then " ‚Äî "
        ++ update_due else ""
      items ++ "<li>"
        ++ stale_str
        ++ "<strong style=\"color: #333;\">"
        ++ job_number
        ++ "</strong> ‚Äî "
        ++ job_name ++ due_str
        ++ "</li>") ""
    "\n    <tr>\n      <td style=\"padding: 20px 20px 0 20px;\">\n        <div style=\"background-color: #666666; color: #ffffff; padding: 8px 15px; font-size: 14px; font-weight: bold; border-radius: 3px;\">\n          OTHER PROJECTS\n        </div>\n      </td>\n    </tr>\n    <tr>\n      <td style=\"padding: 15px 20px;\">\n        <ul style=\"margin: 0; padding-left: 20px; color: #666; font-size: 14px; line-height: 1.8;\">\n          "
    ++ items
    ++ "\n        </ul>\n      </td>\n    </tr>"

/-- The literal part of the `build_todo_email` template before the header
image tag. -/
def emailSegA : String := "<!DOCTYPE html>\n<html>\n<head>\n  <meta charset=\"utf-8\">\n  <meta name=\"viewport\" content=\"width=device-width, initial-scale=1.0\">\n  <meta http-equiv=\"X-UA-Compatible\" content=\"IE=edge\">\n  <style>\n    @media screen and (max-width: 600px) \x7b\n      .wrapper \x7b\n        width: 100% !important;\n        padding: 8px !important;\n      \x7d\n      .wrapper td \x7b\n        padding-left: 12px !important;\n        padding-right: 12px !important;\n      \x7d\n    \x7d\n  </style>\n</head>\n<body style=\"margin: 0; padding: 20px; font-family: Calibri, Arial, sans-serif; background-color: #f5f5f5; width: 100% !important;\">\n  \n  <table class=\"wrapper\" width=\"600\" cellpadding=\"0\" cellspacing=\"0\" style=\"width: 600px; max-width: 100%; margin: 0 auto; background-color: #ffffff;\">\n    \n    <!-- Header -->\n    <tr>\n      <td style=\"border-bottom: 4px solid #ED1C24; padding: 0;\">\n        "

/-- The literal part of the header image tag after the interpolated URL. -/
def emailImgTail : String := "\" width=\"600\" style=\"width: 100%; max-width: 600px; height: auto; display: block;\" alt=\"To Do Header\">"

/-- The literal template part between the header image tag and the date
paragraph. -/
def emailSegB : String := "\n      </td>\n    </tr>\n    \n    <!-- Date -->\n    <tr>\n      <td style=\"padding: 20px 20px 5px 20px;\">\n        "

/-- The opening of the date paragraph, up to the interpolated date. -/
def emailDateOpen : String := "<p style=\"margin: 0; font-size: 12px; color: #999;\">"

/-- The literal template part between the date paragraph and the first
interpolated section. -/
def emailSegC : String := "\n      </td>\n    </tr>\n    \n    "

/-- The literal template part after the last interpolated section: the footer
and the closing tags. -/
def emailFooter : String := "\n    \n    <!-- Footer -->\n    <tr>\n      <td style=\"padding: 25px 20px; border-top: 1px solid #eee; text-align: center;\">\n        <p style=\"margin: 0 0 5px 0; font-size: 12px; color: #333; font-weight: bold;\">Agency Intuition x Artificial Intelligence = AI¬≤</p>\n        <p style=\"margin: 0; font-size: 12px; color: #999;\">Got questions? Get in touch</p>\n      </td>\n    </tr>\n    \n  </table>\n  \n</body>\n</html>"

/-- `build_todo_email(fun_fact, meetings, work_today, work_this_week,
other_projects)` from src/app.py; `today` stands for
`datetime.now().strftime(...)`.  The f-string is the concatenation of its
literal segments and interpolations, grouped here at tag boundaries. -/
def build_todo_email (today fun_fact : String) (meetings : List MeetingView)
    (work_today work_this_week : List JobView)
    (other_projects : List OtherProjectView) : String :=
  emailSegA
    ++ ("<img src=\"" ++ HEADER_URL ++ emailImgTail)
    ++ emailSegB
    ++ (emailDateOpen ++ today ++ "</p>")
    ++ emailSegC
    ++ build_summary_html fun_fact
    ++ "\n    "
    ++ build_meetings_html meetings
    ++ "\n    "
    ++ build_section_html "WORK TODAY" work_today "#ED1C24"
    ++ "\n    "
    ++ build_section_html "WORK THIS WEEK" work_this_week "#666666"
    ++ "\n    "
    ++ build_other_projects_html other_projects
    ++ emailFooter

/-- Claim C8: each email section builder returns the empty string when its
input list is empty, so the section contributes no markup to the email. -/
theorem empty_sections_omitted (title color : String) :
    build_meetings_html [] = "" ∧
    build_section_html title [] color = "" ∧
    build_other_projects_html [] = "" :=
  ⟨rfl, rfl, rfl⟩

/-- A field that Airtable may return either as a string or as a list of
strings (lookup fields); src/app.py coerces a list to its first element. -/
inductive AirField where
  | str (s : String)
  | list (l : List String)
  deriving DecidableEq

/-- Python `x[0] if x else ''` applied when `isinstance(x, list)`, else `x`
unchanged. -/
def AirField.coerce : AirField → String
  | .str s => s
  | .list l => l.headD ""

/-- The fields of one Projects-table record read by `get_jobs_from_airtable`;
a missing field reads as its `.get` default. -/
structure ProjectFields where
  updateDueFriendly : AirField := .str ""
  updateSummary : AirField := .str ""
  jobNumber : String := ""
  projectName : String := ""
  stage : String := ""
  channelUrl : String := ""
  withClient : Bool := false
  deriving DecidableEq

/-- The fields of one Updates-table record read by `get_last_update_dates`;
a missing field reads as its `.get` default. -/
structure UpdateFields where
  jobNumber : String := ""
  createdTime : String := ""
  deriving DecidableEq

/-- One job dict as built by the loop in `get_jobs_from_airtable`. -/
structure Job where
  jobNumber : String
  jobName : String
  update : String
  updateDue : String
  stage : String
  channelUrl : String
  withClient : Bool
  stale : Bool
  deriving DecidableEq

/-- The record loop of `get_last_update_dates`: keep the first `Created time`
seen for each non-empty job number (records arrive sorted by `Created time`
descending, so the first kept is the most recent). -/
def buildLastUpdates (acc : List (String × String)) :
    List UpdateFields → List (String × String)
  | [] => acc
  | r :: rest =>
    if r.jobNumber ≠ "" ∧ (acc.find? (fun kv => kv.1 == r.jobNumber)) = none then
      buildLastUpdates (acc ++ [(r.jobNumber, r.createdTime)]) rest
    else
      buildLastUpdates acc rest

/-- `get_last_update_dates()` from src/app.py, with the module-level API key
and the outcome of the HTTP fetch (the parsed record list, or any raised
exception) as explicit parameters; an exception is logged and `{}` returned. -/
def get_last_update_dates (apiKey : String)
    (fetch : Except String (List UpdateFields)) : List (String × String) :=
  if apiKey = "" then []
  else
    match fetch with
    | .error _ => []
    | .ok records => buildLastUpdates [] records

/-- Python `s.endswith(t)`. -/
def pyEndsWith (s t : String) : Bool :=
  t.data.isSuffixOf s.data

/-- The skip guard of the record loop of `get_jobs_from_airtable`:
`job_number and (job_number.endswith('000') or ... '999' or ... '998')`. -/
def excludedSuffix (job_number : String) : Bool :=
  decide (job_number ≠ "") &&
    (pyEndsWith job_number "000" || pyEndsWith job_number "999" || pyEndsWith job_number "998")

/-- The dict appended for one non-skipped record in `get_jobs_from_airtable`. -/
def recordToJob (last_updates : List (String × String)) (now : Int)
    (r : ProjectFields) : Job :=
  { jobNumber := r.jobNumber
    jobName := r.projectName
    update := if r.updateSummary.coerce = "" then "No updates yet" else r.updateSummary.coerce
    updateDue := r.updateDueFriendly.coerce
    stage := r.stage
    channelUrl := r.channelUrl
    withClient := r.withClient
    stale := is_stale r.jobNumber last_updates now }

/-- The record loop of `get_jobs_from_airtable`: skip excluded job numbers,
build a job dict for the rest. -/
def processRecords (last_updates : List (String × String)) (now : Int)
    (records : List ProjectFields) : List Job :=
  records.filterMap fun r =>
    if excludedSuffix r.jobNumber then none
    else some (recordToJob last_updates now r)

/-- `get_jobs_from_airtable()` from src/app.py, with the API key and the two
HTTP fetch outcomes as explicit parameters; a missing key or a raised
exception yields `[]` (logged, not raised). -/
def get_jobs_from_airtable (apiKey : String)
    (updatesFetch : Except String (List UpdateFields))
    (projectsFetch : Except String (List ProjectFields))
    (now : Int) : List Job :=
  if apiKey = "" then []
  else
    match projectsFetch with
    | .error _ => []
    | .ok records =>
      processRecords (get_last_update_dates apiKey updatesFetch) now records

/-- The record loop keeps exactly the records whose job number is not
excluded, in order, each turned into its job dict. -/
theorem processRecords_eq (lu : List (String × String)) (now : Int)
    (records : List ProjectFields) :
    processRecords lu now records
      = (records.filter (fun r => !excludedSuffix r.jobNumber)).map (recordToJob lu now) := by
  induction records with
  | nil => rfl
  | cons r rest ih =>
    simp only [processRecords, List.filterMap_cons] at ih ⊢
    by_cases h : excludedSuffix r.jobNumber = true
    · simp [h, ih, List.filter_cons]
    · simp only [Bool.not_eq_true] at h
      simp [h, ih, List.filter_cons]

/-- Claim C7: a fetched record whose non-empty job number ends in 000, 999 or
998 is excluded from the returned job list; every other record's job appears
in it. -/
theorem suffix_exclusion (lu : List (String × String)) (now : Int)
    (records : List ProjectFields) :
    processRecords lu now records
      = (records.filter (fun r => !excludedSuffix r.jobNumber)).map (recordToJob lu now) ∧
    (∀ j ∈ processRecords lu now records, excludedSuffix j.jobNumber = false) ∧
    (∀ r ∈ records, excludedSuffix r.jobNumber = false →
      recordToJob lu now r ∈ processRecords lu now records) := by
  refine ⟨processRecords_eq lu now records, ?_, ?_⟩
  · intro j hj
    rw [processRecords_eq] at hj
    obtain ⟨r, hr, rfl⟩ := List.mem_map.mp hj
    have hpass := (List.mem_filter.mp hr).2
    simpa [recordToJob] using hpass
  · intro r hr hex
    rw [processRecords_eq]
    exact List.mem_map_of_mem _ (List.mem_filter.mpr ⟨hr, by simp [hex]⟩)

/-- Witness for C7: with records numbered 12000 (excluded) and 12345 (kept),
the kept record's job is in the output and carries a non-excluded number. -/
theorem suffix_exclusion_witness :
    excludedSuffix (recordToJob [] 0 { jobNumber := "12345" }).jobNumber = false ∧
    recordToJob [] 0 { jobNumber := "12345" }
      ∈ processRecords [] 0 [{ jobNumber := "12000" }, { jobNumber := "12345" }] :=
  ⟨(suffix_exclusion [] 0 [{ jobNumber := "12000" }, { jobNumber := "12345" }]).2.1
      (recordToJob [] 0 { jobNumber := "12345" }) (by decide),
   (suffix_exclusion [] 0 [{ jobNumber := "12000" }, { jobNumber := "12345" }]).2.2
      { jobNumber := "12345" } (by decide) (by decide)⟩

/-- `buildLastUpdates` never stores an entry under the empty job number. -/
theorem buildLastUpdates_key_ne (records : List UpdateFields)
    (acc : List (String × String)) (h : ∀ kv ∈ acc, kv.1 ≠ "") :
    ∀ kv ∈ buildLastUpdates acc records, kv.1 ≠ "" := by
  induction records generalizing acc with
  | nil => simpa [buildLastUpdates] using h
  | cons r rest ih =>
    rw [buildLastUpdates]
    split
    · next hcond =>
      refine ih _ ?_
      intro kv hkv
      rcases List.mem_append.mp hkv with h1 | h2
      · exact h kv h1
      · rw [List.mem_singleton] at h2
        rw [h2]
        exact hcond.1
    · exact ih _ h

/-- Looking up the empty job number in the fetched update dates always gives
the `.get` default. -/
theorem get_last_update_dates_no_empty (apiKey : String)
    (fetch : Except String (List UpdateFields)) :
    dictGetD (get_last_update_dates apiKey fetch) "" "" = "" := by
  rw [dictGetD]
  have hnone : (get_last_update_dates apiKey fetch).find? (fun kv => kv.1 == "") = none := by
    rw [List.find?_eq_none]
    intro kv hkv
    simp only [get_last_update_dates] at hkv
    by_cases hk : apiKey = ""
    · simp [hk] at hkv
    · rw [if_neg hk] at hkv
      cases fetch with
      | error e => simp at hkv
      | ok records =>
        have hne := buildLastUpdates_key_ne records [] (by simp) kv hkv
        simpa using hne
  rw [hnone]

/-- Claim C9: a fetched project record with a missing or empty job number is
not skipped by the suffix-exclusion rule, and its job is always marked stale,
because `get_last_update_dates` never stores an entry under the empty job
number and `is_stale` defaults a missing entry to stale. -/
theorem empty_jobnumber_included_stale (apiKey : String)
    (updatesFetch : Except String (List UpdateFields)) (now : Int)
    (records : List ProjectFields) (r : ProjectFields)
    (hr : r ∈ records) (hempty : r.jobNumber = "") :
    recordToJob (get_last_update_dates apiKey updatesFetch) now r
        ∈ processRecords (get_last_update_dates apiKey updatesFetch) now records ∧
    (recordToJob (get_last_update_dates apiKey updatesFetch) now r).stale = true := by
  constructor
  · rw [processRecords_eq]
    refine List.mem_map_of_mem _ (List.mem_filter.mpr ⟨hr, ?_⟩)
    simp [excludedSuffix, hempty]
  · show is_stale r.jobNumber (get_last_update_dates apiKey updatesFetch) now = true
    rw [hempty]
    simp [is_stale, get_last_update_dates_no_empty]

/-- Witness for C9: a record with an empty job number lands in the job list
of a one-record fetch and is stale. -/
theorem empty_jobnumber_included_stale_witness :
    ({ jobNumber := "", projectName := "P" } : ProjectFields)
        ∈ [({ jobNumber := "", projectName := "P" } : ProjectFields)] ∧
    ({ jobNumber := "", projectName := "P" } : ProjectFields).jobNumber = "" ∧
    recordToJob (get_last_update_dates "key" (.ok [])) 0
        { jobNumber := "", projectName := "P" }
      ∈ processRecords (get_last_update_dates "key" (.ok [])) 0
          [{ jobNumber := "", projectName := "P" }] ∧
    (recordToJob (get_last_update_dates "key" (.ok [])) 0
        { jobNumber := "", projectName := "P" }).stale = true :=
  ⟨by decide, by decide,
   (empty_jobnumber_included_stale "key" (.ok []) 0
      [{ jobNumber := "", projectName := "P" }] { jobNumber := "", projectName := "P" }
      (by decide) (by decide)).1,
   (empty_jobnumber_included_stale "key" (.ok []) 0
      [{ jobNumber := "", projectName := "P" }] { jobNumber := "", projectName := "P" }
      (by decide) (by decide)).2⟩

/-- The object shape the prompt asks the language model to return; a missing
key reads as its `.get` default in the handler. -/
structure ClaudeResp where
  funFact : String := ""
  meetings : List MeetingView := []
  workToday : List JobView := []
  workThisWeek : List JobView := []
  otherProjects : List OtherProjectView := []
  deriving DecidableEq

/-- `call_claude(meetings, jobs)` from src/app.py.  The messages API call is
the parameter `api` (its response text on success, the raised exception
otherwise; the prompt built from `meetings` and `jobs` is part of it), and
`jsonParse` stands for `json.loads`, `none` when it raises.  The handler's
`if claude_response:` treats a falsy parse result like `None`, so both are
modelled as `none`.  Any failure inside the `try` yields `None`. -/
def call_claude (api : Except String String)
    (jsonParse : String → Option ClaudeResp) : Option ClaudeResp :=
  match api with
  | .error _ => none
  | .ok text => jsonParse (strip_markdown_json text)

/-- A JSON value in the handler's response object: string or number. -/
inductive RespVal where
  | s (v : String)
  | n (v : Nat)
  deriving DecidableEq

/-- The `/todo` handler from src/app.py as a function of its effect outcomes:
the parsed request body (or the exception raised reading it), the Airtable
key and the two fetch outcomes, the clock readings, and the language-model
call.  Returns the HTTP status with the JSON object passed to `jsonify`. -/
def todo (body : Except String (List MeetingView))
    (apiKey : String)
    (updatesFetch : Except String (List UpdateFields))
    (projectsFetch : Except String (List ProjectFields))
    (now : Int) (today : String)
    (claudeApi : Except String String)
    (jsonParse : String → Option ClaudeResp) : Nat × List (String × RespVal) :=
  match body with
  | .error e => (500, [("error", .s "Internal server error"), ("details", .s e)])
  | .ok _meetings =>
    let jobs := get_jobs_from_airtable apiKey updatesFetch projectsFetch now
    let claude_response := call_claude claudeApi jsonParse
    let (fun_fact, processed_meetings, work_today, work_this_week, other_projects) :=
      match claude_response with
      | some cr => (cr.funFact, cr.meetings, cr.workToday, cr.workThisWeek, cr.otherProjects)
      | none =>
        ("", [], [],  [],
         jobs.map fun j => ({ jobNumber := j.jobNumber, jobName := j.jobName } : OtherProjectView))
    let html := build_todo_email today fun_fact processed_meetings work_today
      work_this_week other_projects
    (200, [("html", .s html), ("funFact", .s fun_fact),
           ("meetingsCount", .n processed_meetings.length),
           ("jobsTodayCount", .n work_today.length),
           ("jobsThisWeekCount", .n work_this_week.length),
           ("otherProjectsCount", .n other_projects.length)])

/-- Claim C4: every response of POST `/todo` is either HTTP 200 with a JSON
object whose keys are html, funFact, meetingsCount, jobsTodayCount,
jobsThisWeekCount and otherProjectsCount, the four counts being the lengths
of the lists rendered into the email, or HTTP 500 with keys error and details
when reading the request body raises. -/
theorem todo_response_shape (body : Except String (List MeetingView))
    (apiKey : String) (updatesFetch : Except String (List UpdateFields))
    (projectsFetch : Except String (List ProjectFields))
    (now : Int) (today : String) (claudeApi : Except String String)
    (jsonParse : String → Option ClaudeResp) :
    (∃ e, body = .error e ∧
      todo body apiKey updatesFetch projectsFetch now today claudeApi jsonParse
        = (500, [("error", .s "Internal server error"), ("details", .s e)])) ∨
    (∃ fun_fact pm wt ww op,
      todo body apiKey updatesFetch projectsFetch now today claudeApi jsonParse
        = (200, [("html", .s (build_todo_email today fun_fact pm wt ww op)),
                 ("funFact", .s fun_fact),
                 ("meetingsCount", .n pm.length),
                 ("jobsTodayCount", .n wt.length),
                 ("jobsThisWeekCount", .n ww.length),
                 ("otherProjectsCount", .n op.length)])) := by
  cases body with
  | error e => exact Or.inl ⟨e, rfl, rfl⟩
  | ok ms =>
    refine Or.inr ?_
    cases hc : call_claude claudeApi jsonParse with
    | some cr =>
      exact ⟨cr.funFact, cr.meetings, cr.workToday, cr.workThisWeek, cr.otherProjects,
        by simp only [todo, hc]⟩
    | none =>
      exact ⟨"", [], [], [],
        (get_jobs_from_airtable apiKey updatesFetch projectsFetch now).map
          fun j => ({ jobNumber := j.jobNumber, jobName := j.jobName } : OtherProjectView),
        by simp only [todo, hc]⟩

/-- Claim C3: whenever the language-model call fails (the API raises, or the
response text does not parse as JSON after stripping the fence),
`call_claude` returns `None` and the handler takes the fallback path: empty
fun fact, meetings and work lists, the other-projects list holding exactly
the jobNumber and jobName of every fetched job, and an HTTP 200 response. -/
theorem claude_failure_fallback (apiKey : String)
    (updatesFetch : Except String (List UpdateFields))
    (projectsFetch : Except String (List ProjectFields))
    (now : Int) (today : String) (ms : List MeetingView)
    (claudeApi : Except String String) (jsonParse : String → Option ClaudeResp) :
    (∀ e, claudeApi = .error e → call_claude claudeApi jsonParse = none) ∧
    (∀ t, claudeApi = .ok t → jsonParse (strip_markdown_json t) = none →
      call_claude claudeApi jsonParse = none) ∧
    (call_claude claudeApi jsonParse = none →
      todo (.ok ms) apiKey updatesFetch projectsFetch now today claudeApi jsonParse
        = (200,
           [("html", .s (build_todo_email today "" [] [] []
              ((get_jobs_from_airtable apiKey updatesFetch projectsFetch now).map
                fun j => { jobNumber := j.jobNumber, jobName := j.jobName }))),
            ("funFact", .s ""),
            ("meetingsCount", .n 0),
            ("jobsTodayCount", .n 0),
            ("jobsThisWeekCount", .n 0),
            ("otherProjectsCount",
             .n (get_jobs_from_airtable apiKey updatesFetch projectsFetch now).length)])) ∧
    (((get_jobs_from_airtable apiKey updatesFetch projectsFetch now).map
        fun j => ({ jobNumber := j.jobNumber, jobName := j.jobName } : OtherProjectView)).map
          (fun o => (o.jobNumber, o.jobName))
      = (get_jobs_from_airtable apiKey updatesFetch projectsFetch now).map
          fun j => (j.jobNumber, j.jobName)) := by
  refine ⟨fun e he => by simp [call_claude, he], fun t ht hp => by simp [call_claude, ht, hp],
    fun hc => ?_, by simp⟩
  simp only [todo, hc, List.length_map, List.length_nil]

/-- Witness for C3: a failed model call on failed fetches produces the
concrete fallback response. -/
theorem claude_failure_fallback_witness :
    call_claude (.error "boom") (fun _ => none) = none ∧
    todo (.ok []) "" (.error "e1") (.error "e2") 0 "Monday, 1 January 2024"
        (.error "boom") (fun _ => none)
      = (200,
         [("html", .s (build_todo_email "Monday, 1 January 2024" "" [] [] []
            ((get_jobs_from_airtable "" (.error "e1") (.error "e2") 0).map
              fun j => { jobNumber := j.jobNumber, jobName := j.jobName }))),
          ("funFact", .s ""),
          ("meetingsCount", .n 0), ("jobsTodayCount", .n 0), ("jobsThisWeekCount", .n 0),
          ("otherProjectsCount", .n (get_jobs_from_airtable "" (.error "e1") (.error "e2") 0).length)]) :=
  ⟨(claude_failure_fallback "" (.error "e1") (.error "e2") 0 "Monday, 1 January 2024" []
      (.error "boom") (fun _ => none)).1 "boom" rfl,
   (claude_failure_fallback "" (.error "e1") (.error "e2") 0 "Monday, 1 January 2024" []
      (.error "boom") (fun _ => none)).2.2.1
     ((claude_failure_fallback "" (.error "e1") (.error "e2") 0 "Monday, 1 January 2024" []
        (.error "boom") (fun _ => none)).1 "boom" rfl)⟩

/-- Claim C2 (amended): a missing tracking-API key or a failed jobs fetch
makes `get_jobs_from_airtable` return the empty list without raising, and
`/todo` still answers HTTP 200; the job buckets of the response come from
the language-model output, so they are empty whenever that call fails too
(in particular the fallback other-projects list is then empty). -/
theorem tracking_failure_degrades (apiKey : String)
    (updatesFetch : Except String (List UpdateFields))
    (projectsFetch : Except String (List ProjectFields))
    (now : Int) (today : String) (ms : List MeetingView)
    (claudeApi : Except String String) (jsonParse : String → Option ClaudeResp) :
    (apiKey = "" ∨ (∃ e, projectsFetch = Except.error e) →
      get_jobs_from_airtable apiKey updatesFetch projectsFetch now = []) ∧
    (todo (.ok ms) apiKey updatesFetch projectsFetch now today claudeApi jsonParse).1 = 200 ∧
    (apiKey = "" ∨ (∃ e, projectsFetch = Except.error e) →
      call_claude claudeApi jsonParse = none →
      todo (.ok ms) apiKey updatesFetch projectsFetch now today claudeApi jsonParse
        = (200, [("html", .s (build_todo_email today "" [] [] [] [])),
                 ("funFact", .s ""),
                 ("meetingsCount", .n 0), ("jobsTodayCount", .n 0),
                 ("jobsThisWeekCount", .n 0), ("otherProjectsCount", .n 0)])) := by
  have hjobs : apiKey = "" ∨ (∃ e, projectsFetch = Except.error e) →
      get_jobs_from_airtable apiKey updatesFetch projectsFetch now = [] := by
    rintro (hk | ⟨e, he⟩)
    · simp [get_jobs_from_airtable, hk]
    · by_cases hk : apiKey = "" <;> simp [get_jobs_from_airtable, hk, he]
  refine ⟨hjobs, ?_, fun hfail hc => ?_⟩
  · cases hcc : call_claude claudeApi jsonParse <;> simp [todo, hcc]
  · simp only [todo, hc, hjobs hfail, List.map_nil, List.length_nil]

/-- Counterexample to C2 as stated: with the tracking-API key missing but the
language model answering an object with one workToday entry, the response's
jobsTodayCount is 1, so the buckets are not empty. -/
theorem tracking_failure_nonempty_bucket :
    get_jobs_from_airtable "" (.error "x") (.error "x") 0 = [] ∧
    todo (.ok []) "" (.error "x") (.error "x") 0 "Mon" (.ok "resp")
        (fun _ => some { workToday := [{}] })
      = (200, [("html", .s (build_todo_email "Mon" "" [] [{}] [] [])),
               ("funFact", .s ""),
               ("meetingsCount", .n 0),
               ("jobsTodayCount", .n 1),
               ("jobsThisWeekCount", .n 0),
               ("otherProjectsCount", .n 0)]) ∧
    ("jobsTodayCount", RespVal.n 0)
        ∉ (todo (.ok []) "" (.error "x") (.error "x") 0 "Mon" (.ok "resp")
            (fun _ => some { workToday := [{}] })).2 := by
  refine ⟨rfl, rfl, ?_⟩
  intro hm
  rw [show (todo (.ok []) "" (.error "x") (.error "x") 0 "Mon" (.ok "resp")
        (fun _ => some { workToday := [{}] })).2
      = [("html", .s (build_todo_email "Mon" "" [] [{}] [] [])),
         ("funFact", .s ""),
         ("meetingsCount", .n 0),
         ("jobsTodayCount", .n 1),
         ("jobsThisWeekCount", .n 0),
         ("otherProjectsCount", .n 0)] from rfl] at hm
  simp at hm

/-- Witness for C2 (amended): with a missing key and a failed model call the
jobs list is empty and the response is the all-empty HTTP 200 object. -/
theorem tracking_failure_degrades_witness :
    get_jobs_from_airtable "" (.error "e1") (.error "e2") 0 = [] ∧
    (todo (.ok []) "" (.error "e1") (.error "e2") 0 "Mon" (.error "boom")
        (fun _ => none)).1 = 200 ∧
    todo (.ok []) "" (.error "e1") (.error "e2") 0 "Mon" (.error "boom") (fun _ => none)
      = (200, [("html", .s (build_todo_email "Mon" "" [] [] [] [])),
               ("funFact", .s ""), ("meetingsCount", .n 0), ("jobsTodayCount", .n 0),
               ("jobsThisWeekCount", .n 0), ("otherProjectsCount", .n 0)]) :=
  ⟨(tracking_failure_degrades "" (.error "e1") (.error "e2") 0 "Mon" [] (.error "boom")
      (fun _ => none)).1 (Or.inl rfl),
   (tracking_failure_degrades "" (.error "e1") (.error "e2") 0 "Mon" [] (.error "boom")
      (fun _ => none)).2.1,
   (tracking_failure_degrades "" (.error "e1") (.error "e2") 0 "Mon" [] (.error "boom")
      (fun _ => none)).2.2 (Or.inl rfl) rfl⟩

theorem infix_extend_left {α : Type} (x : List α) {t y : List α} (h : t <:+: y) :
    t <:+: x ++ y := by
  obtain ⟨p, q, hpq⟩ := h
  exact ⟨x ++ p, q, by rw [← hpq]; simp [List.append_assoc]⟩

theorem infix_extend_right {α : Type} (y : List α) {t x : List α} (h : t <:+: x) :
    t <:+: x ++ y := by
  obtain ⟨p, q, hpq⟩ := h
  exact ⟨p, q ++ y, by rw [← hpq]; simp [List.append_assoc]⟩

theorem infix_self_right {α : Type} {x t : List α} : t <:+: x ++ t :=
  ⟨x, [], by simp⟩

set_option maxRecDepth 8000 in
/-- Claim C10: for every combination of inputs, including all-empty lists and
an empty fun fact, `build_todo_email` returns a complete HTML document that
contains the fixed header image tag, the current date line, and the footer,
starting with the doctype and ending with the closing html tag. -/
theorem build_todo_email_complete (today fun_fact : String)
    (meetings : List MeetingView) (work_today work_this_week : List JobView)
    (other_projects : List OtherProjectView) :
    ("<img src=\"" ++ HEADER_URL ++ emailImgTail).data
      <:+: (build_todo_email today fun_fact meetings work_today work_this_week
              other_projects).data ∧
    (emailDateOpen ++ today ++ "</p>").data
      <:+: (build_todo_email today fun_fact meetings work_today work_this_week
              other_projects).data ∧
    "Agency Intuition x Artificial Intelligence = AI¬≤".data
      <:+: (build_todo_email today fun_fact meetings work_today work_this_week
              other_projects).data ∧
    "<!DOCTYPE html>".data
      <+: (build_todo_email today fun_fact meetings work_today work_this_week
              other_projects).data ∧
    "</html>".data
      <:+ (build_todo_email today fun_fact meetings work_today work_this_week
              other_projects).data := by
  refine ⟨?_, ?_, ?_, ?_, ?_⟩
  · simp only [build_todo_email, data_append]
    iterate 13 (refine infix_extend_right _ ?_)
    exact infix_self_right
  · simp only [build_todo_email, data_append]
    iterate 11 (refine infix_extend_right _ ?_)
    exact infix_self_right
  · simp only [build_todo_email, data_append]
    refine infix_extend_left _ ?_
    exact ⟨emailFooter.data.take 209, emailFooter.data.drop 258, by decide⟩
  · simp only [build_todo_email, data_append]
    iterate 14 (refine List.IsPrefix.trans ?_ (List.prefix_append _ _))
    exact ⟨emailSegA.data.drop 15, by decide⟩
  · simp only [build_todo_email, data_append]
    refine List.IsSuffix.trans ?_ (List.suffix_append _ _)
    exact ⟨emailFooter.data.take 404, by decide⟩

/-- Modelled from the spec: the next working day after day `d`, skipping
Saturdays and Sundays (day numbers are rata die, so `d % 7 = 6` is Saturday
and `d % 7 = 0` is Sunday). -/
def nextWorkday (d : Nat) : Nat :=
  let d1 := d + 1
  if d1 % 7 = 6 then d1 + 2
  else if d1 % 7 = 0 then d1 + 1
  else d1

/-- Modelled from the spec: "end_of_week" is today plus 4 weekday-only
increments. -/
def endOfWeek (today : Nat) : Nat :=
  nextWorkday (nextWorkday (nextWorkday (nextWorkday today)))

/-- The optional due date of a job: its due-date string parsed as a
`YYYY-MM-DD` prefix, as dates parse elsewhere in the service. -/
def dueDateOf (j : Job) : Option Nat :=
  parseYMD (j.updateDue.data.take 10)

/-- Modelled from the spec: the job classifier of the sibling revisions is
not part of src/app.py (this revision delegates bucketing to the language
model).  A job with no parseable due date falls into "other"; a job due on
or before tomorrow is "today"; a job due on or before end-of-week is "this
week"; anything later is "other"; each bucket is sorted ascending by
due-date string. -/
def classify_jobs (today : Nat) (jobs : List Job) :
    List Job × List Job × List Job :=
  let tomorrow := today + 1
  let eow := endOfWeek today
  let isToday : Job → Bool := fun j =>
    match dueDateOf j with
    | some d => decide (d ≤ tomorrow)
    | none => false
  let isThisWeek : Job → Bool := fun j =>
    match dueDateOf j with
    | some d => !decide (d ≤ tomorrow) && decide (d ≤ eow)
    | none => false
  let sortByDue : List Job → List Job :=
    List.insertionSort (fun a b : Job => a.updateDue ≤ b.updateDue)
  (sortByDue (jobs.filter isToday),
   sortByDue (jobs.filter isThisWeek),
   sortByDue (jobs.filter (fun j => !isToday j && !isThisWeek j)))

/-- Claim C5 (spec-modelled): classification into the three buckets is a
partition of the input jobs: a job is in some bucket exactly when it is in
the input, and the three buckets are pairwise disjoint. -/
theorem classify_jobs_partition (today : Nat) (jobs : List Job) (j : Job) :
    ((j ∈ (classify_jobs today jobs).1 ∨ j ∈ (classify_jobs today jobs).2.1 ∨
        j ∈ (classify_jobs today jobs).2.2) ↔ j ∈ jobs) ∧
    ¬(j ∈ (classify_jobs today jobs).1 ∧ j ∈ (classify_jobs today jobs).2.1) ∧
    ¬(j ∈ (classify_jobs today jobs).1 ∧ j ∈ (classify_jobs today jobs).2.2) ∧
    ¬(j ∈ (classify_jobs today jobs).2.1 ∧ j ∈ (classify_jobs today jobs).2.2) := by
  have hmem : ∀ (l : List Job),
      j ∈ List.insertionSort (fun a b : Job => a.updateDue ≤ b.updateDue) l ↔ j ∈ l :=
    fun l => (List.perm_insertionSort _ l).mem_iff
  simp only [classify_jobs, hmem, List.mem_filter]
  cases hd : dueDateOf j with
  | none => simp [hd]
  | some d =>
    by_cases h1 : d ≤ today + 1 <;> by_cases h2 : d ≤ endOfWeek today <;>
      simp [hd, h1, h2]

/-- Witness for C5: one job due tomorrow lands in a bucket (the today
bucket), is in the input, and in no two buckets at once. -/
theorem classify_jobs_partition_witness :
    ((({ jobNumber := "1", jobName := "A", update := "", updateDue := "2025-10-07",
          stage := "", channelUrl := "", withClient := false, stale := false } : Job)
        ∈ (classify_jobs (rataDie 2025 10 6)
            [{ jobNumber := "1", jobName := "A", update := "", updateDue := "2025-10-07",
               stage := "", channelUrl := "", withClient := false, stale := false }]).1 ∨
      ({ jobNumber := "1", jobName := "A", update := "", updateDue := "2025-10-07",
          stage := "", channelUrl := "", withClient := false, stale := false } : Job)
        ∈ (classify_jobs (rataDie 2025 10 6)
            [{ jobNumber := "1", jobName := "A", update := "", updateDue := "2025-10-07",
               stage := "", channelUrl := "", withClient := false, stale := false }]).2.1 ∨
      ({ jobNumber := "1", jobName := "A", update := "", updateDue := "2025-10-07",
          stage := "", channelUrl := "", withClient := false, stale := false } : Job)
        ∈ (classify_jobs (rataDie 2025 10 6)
            [{ jobNumber := "1", jobName := "A", update := "", updateDue := "2025-10-07",
               stage := "", channelUrl := "", withClient := false, stale := false }]).2.2) ↔
      ({ jobNumber := "1", jobName := "A", update := "", updateDue := "2025-10-07",
          stage := "", channelUrl := "", withClient := false, stale := false } : Job)
        ∈ [({ jobNumber := "1", jobName := "A", update := "", updateDue := "2025-10-07",
              stage := "", channelUrl := "", withClient := false, stale := false } : Job)]) ∧
    ¬(({ jobNumber := "1", jobName := "A", update := "", updateDue := "2025-10-07",
          stage := "", channelUrl := "", withClient := false, stale := false } : Job)
        ∈ (classify_jobs (rataDie 2025 10 6)
            [{ jobNumber := "1", jobName := "A", update := "", updateDue := "2025-10-07",
               stage := "", channelUrl := "", withClient := false, stale := false }]).1 ∧
      ({ jobNumber := "1", jobName := "A", update := "", updateDue := "2025-10-07",
          stage := "", channelUrl := "", withClient := false, stale := false } : Job)
        ∈ (classify_jobs (rataDie 2025 10 6)
            [{ jobNumber := "1", jobName := "A", update := "", updateDue := "2025-10-07",
               stage := "", channelUrl := "", withClient := false, stale := false }]).2.1) ∧
    ¬(({ jobNumber := "1", jobName := "A", update := "", updateDue := "2025-10-07",
          stage := "", channelUrl := "", withClient := false, stale := false } : Job)
        ∈ (classify_jobs (rataDie 2025 10 6)
            [{ jobNumber := "1", jobName := "A", update := "", updateDue := "2025-10-07",
               stage := "", channelUrl := "", withClient := false, stale := false }]).1 ∧
      ({ jobNumber := "1", jobName := "A", update := "", updateDue := "2025-10-07",
          stage := "", channelUrl := "", withClient := false, stale := false } : Job)
        ∈ (classify_jobs (rataDie 2025 10 6)
            [{ jobNumber := "1", jobName := "A", update := "", updateDue := "2025-10-07",
               stage := "", channelUrl := "", withClient := false, stale := false }]).2.2) ∧
    ¬(({ jobNumber := "1", jobName := "A", update := "", updateDue := "2025-10-07",
          stage := "", channelUrl := "", withClient := false, stale := false } : Job)
        ∈ (classify_jobs (rataDie 2025 10 6)
            [{ jobNumber := "1", jobName := "A", update := "", updateDue := "2025-10-07",
               stage := "", channelUrl := "", withClient := false, stale := false }]).2.1 ∧
      ({ jobNumber := "1", jobName := "A", update := "", updateDue := "2025-10-07",
          stage := "", channelUrl := "", withClient := false, stale := false } : Job)
        ∈ (classify_jobs (rataDie 2025 10 6)
            [{ jobNumber := "1", jobName := "A", update := "", updateDue := "2025-10-07",
               stage := "", channelUrl := "", withClient := false, stale := false }]).2.2) :=
  classify_jobs_partition (rataDie 2025 10 6)
    [{ jobNumber := "1", jobName := "A", update := "", updateDue := "2025-10-07",
       stage := "", channelUrl := "", withClient := false, stale := false }]
    { jobNumber := "1", jobName := "A", update := "", updateDue := "2025-10-07",
      stage := "", channelUrl := "", withClient := false, stale := false }
